import Mathlib

/-!
Shallow embedding of the customer-management microservice (MS1):
the Joi validation schemas (`src/validators/customerValidator.ts`),
the customer controller (`CustomerController`), the external-service
gateway (`src/services/externalServices.ts`) and the response helpers
(`sendPaginatedResponse`), together with theorems settling the spec
claims about them.
-/

set_option maxRecDepth 4000

namespace MsOne

/-- A calendar date, mirroring the year/month/day components read off a JS
`Date` by `getFullYear`/`getMonth`/`getDate` in the date-of-birth rule.
Months are 1-12 here (the JS code only compares differences of the month
components, so the 0-based/1-based choice is immaterial). -/
structure SimpleDate where
  year : Nat
  month : Nat
  day : Nat
deriving DecidableEq, Repr

/-- Lexicographic "strictly later" on dates: `dateAfter a b` means `a` is a
later calendar day than `b`.  Embeds the JS `Date` comparison used by
`Joi.date().max('now')`. -/
def dateAfter (a b : SimpleDate) : Bool :=
  b.year < a.year ||
    (a.year == b.year &&
      (b.month < a.month || (a.month == b.month && b.day < a.day)))

/-- The age computation of the custom `dateOfBirth` rule in
`createCustomerSchema` (customerValidator.ts lines 82-89):
`age = today.getFullYear() - value.getFullYear()`, then decremented when the
month/day of `today` has not yet reached the birthday's month/day. -/
def computeAge (today dob : SimpleDate) : Int :=
  let age : Int := (today.year : Int) - (dob.year : Int)
  let monthDiff : Int := (today.month : Int) - (dob.month : Int)
  if monthDiff < 0 || (monthDiff == 0 && today.day < dob.day) then age - 1
  else age

/-- The full `dateOfBirth` validation of `createCustomerSchema`
(customerValidator.ts lines 81-104): `Joi.date().max('now')` rejects future
dates with the `date.max` message, then the custom rule rejects computed age
below 18 or above 120 with the `any.invalid` message. -/
def validateDateOfBirth (today dob : SimpleDate) : Except String Unit :=
  if dateAfter dob today then
    .error "Date of birth cannot be in the future"
  else
    let age := computeAge today dob
    if age < 18 then .error "Customer must be between 18 and 120 years old"
    else if age > 120 then .error "Customer must be between 18 and 120 years old"
    else .ok ()

/-- Number of days in a month of the (proleptic) Gregorian calendar, used to
phrase "one day short of 18 years" precisely. -/
def daysInMonth (year month : Nat) : Nat :=
  if month == 2 then
    if year % 4 == 0 && (year % 100 != 0 || year % 400 == 0) then 29 else 28
  else if month == 4 || month == 6 || month == 9 || month == 11 then 30
  else 31

/-- The calendar day after `d`. -/
def nextDay (d : SimpleDate) : SimpleDate :=
  if d.day < daysInMonth d.year d.month then ⟨d.year, d.month, d.day + 1⟩
  else if d.month < 12 then ⟨d.year, d.month + 1, 1⟩
  else ⟨d.year + 1, 1, 1⟩

/-! ### External-service gateway (src/services/externalServices.ts) -/

/-- An account as returned by the MS2 accounts service
(`AccountResponse` in externalServices.ts; the numeric balance field is
not inspected by any code under verification and is omitted). -/
structure AccountResponse where
  id : String
  customerId : String
  accountNumber : String
  accountType : String
  currency : String
  status : String
deriving DecidableEq, Repr

/-- A compliance result as returned by the MS4 compliance service
(`ComplianceCheckResponse` in externalServices.ts). -/
structure ComplianceCheckResponse where
  customerId : String
  status : String
  riskScore : Int
  notes : Option String
  checkedAt : String
deriving DecidableEq, Repr

/-- Shape of `response.data` for the MS2 accounts call: either absent/falsy,
or an object with a `success` flag and an optional `data` array. -/
inductive Ms2Data where
  | missing
  | payload (success : Bool) (data : Option (List AccountResponse))
deriving DecidableEq, Repr

/-- Shape of `response.data` for the MS4 compliance call. -/
inductive Ms4Data where
  | missing
  | payload (success : Bool) (data : Option ComplianceCheckResponse)
deriving DecidableEq, Repr

/-- Outcome of one axios HTTP call, as far as the gateway code inspects it:
a fulfilled response carrying a body, an axios error (with its optional
`code`, optional `response.status`, optional `response.data.message`, and
its own `message`), or a non-axios exception. -/
inductive HttpOutcome (β : Type) where
  | fulfilled (body : β)
  | axiosFailure (code : Option String) (status : Option Nat)
      (respDataMessage : Option String) (errorMessage : String)
  | otherFailure
deriving DecidableEq, Repr

/-- `msg` contains `sub` as a contiguous substring. -/
def mentions (msg sub : String) : Prop :=
  ∃ pre post, msg = pre ++ sub ++ post

/-- `ExternalServicesClient.getCustomerAccounts` (externalServices.ts lines
68-109), branch for branch: a fulfilled response yields `data.data || []`
when `data.success` is truthy and `[]` otherwise; `ECONNREFUSED` raises the
unavailability error; remote 404 yields `[]`; remote 500 raises a fixed
error; any other axios failure raises an error built from
`error.response?.data?.message || error.message`; a non-axios exception
raises the generic retrieval error. -/
def getCustomerAccounts : HttpOutcome Ms2Data → Except String (List AccountResponse)
  | .fulfilled (.payload true (some accounts)) => .ok accounts
  | .fulfilled (.payload true none) => .ok []
  | .fulfilled (.payload false _) => .ok []
  | .fulfilled .missing => .ok []
  | .axiosFailure code status respDataMessage errorMessage =>
      if code == some "ECONNREFUSED" then
        .error "Account service is currently unavailable. Please try again later."
      else if status == some 404 then
        .ok []
      else if status == some 500 then
        .error "Account service error. Please try again later."
      else
        .error ("Account service error: " ++ respDataMessage.getD errorMessage)
  | .otherFailure => .error "Failed to retrieve customer accounts. Please try again later."

/-- `ExternalServicesClient.triggerComplianceCheck` (externalServices.ts
lines 114-161): a fulfilled response yields its `data.data` when
`data.success` is truthy and `none` otherwise; `ECONNREFUSED` yields `none`;
a remote 400 RAISES a validation error; a remote 5xx, any other axios
failure, and any non-axios exception yield `none`. -/
def triggerComplianceCheck : HttpOutcome Ms4Data → Except String (Option ComplianceCheckResponse)
  | .fulfilled (.payload true d) => .ok d
  | .fulfilled (.payload false _) => .ok none
  | .fulfilled .missing => .ok none
  | .axiosFailure code status respDataMessage _errorMessage =>
      if code == some "ECONNREFUSED" then
        .ok none
      else if status == some 400 then
        .error ("Compliance validation error: " ++ respDataMessage.getD "Invalid data")
      else if status.any (fun s => 500 ≤ s) then
        .ok none
      else
        .ok none
  | .otherFailure => .ok none

/-- Operational application errors of the controller layer
(`AppError` in the error-handling middleware): a message plus an HTTP
status code. -/
structure AppError where
  message : String
  statusCode : Nat
deriving DecidableEq, Repr

/-- A customer record as persisted in the store, restricted to the fields
the verified operations read or write (`ICustomer` in models/Customer.ts;
`country` stands for `address.country`). -/
structure CustomerRec where
  id : String
  firstName : String
  lastName : String
  email : String
  phone : String
  dateOfBirth : SimpleDate
  nationalId : String
  passportNumber : Option String
  country : String
  status : String
  complianceStatus : String
  createdAt : Nat
  updatedAt : Nat
deriving DecidableEq, Repr

/-- `Customer.findById`. -/
def findById (store : List CustomerRec) (id : String) : Option CustomerRec :=
  store.find? (fun c => c.id == id)

/-- The response payload of `CustomerController.getCustomerAccounts`:
a customer summary plus the account list. -/
structure AccountsPayload where
  customerId : String
  firstName : String
  lastName : String
  email : String
  accounts : List AccountResponse
deriving DecidableEq, Repr

/-- `CustomerController.getCustomerAccounts` (controller lines 138-166):
404 when the customer is absent; otherwise the gateway call's result,
with any gateway error re-wrapped as `AppError(message, 503)`. -/
def getCustomerAccountsEndpoint (store : List CustomerRec) (id : String)
    (outcome : HttpOutcome Ms2Data) : Except AppError AccountsPayload :=
  match findById store id with
  | none => .error ⟨"Customer not found", 404⟩
  | some customer =>
    match getCustomerAccounts outcome with
    | .ok accounts =>
        .ok ⟨customer.id, customer.firstName, customer.lastName, customer.email, accounts⟩
    | .error msg => .error ⟨msg, 503⟩

/-- A sample stored customer, used to instantiate theorems with hypotheses. -/
def sampleCustomer : CustomerRec :=
  ⟨"c1", "Ana", "Ruiz", "ana@x.com", "+57 300 111 2222", ⟨1990, 1, 1⟩,
    "12345678", none, "Colombia", "active", "pending", 1, 1⟩

/-! ### Customer store operations (CustomerController) -/

/-- A validated address (output of `addressSchema`). -/
structure AddressValue where
  street : String
  city : String
  state : String
  postalCode : String
  country : String
deriving DecidableEq, Repr

/-- Validated notification preferences. -/
structure NotificationPreferencesValue where
  email : Bool
  sms : Bool
  push : Bool
deriving DecidableEq, Repr

/-- Validated customer preferences (output of `customerPreferencesSchema`). -/
structure PreferencesValue where
  language : String
  currency : String
  notificationPreferences : NotificationPreferencesValue
  marketingConsent : Bool
deriving DecidableEq, Repr

/-- A KYC document as submitted on creation (type and filename; the
remaining fields are store-defaulted). -/
structure KycDocumentValue where
  type : String
  filename : String
deriving DecidableEq, Repr

/-- The validated create request body: what `createCustomerSchema` places
into `req.validatedBody` for `CustomerController.createCustomer`. -/
structure CreateCustomerValue where
  firstName : String
  lastName : String
  email : String
  phone : String
  dateOfBirth : SimpleDate
  nationalId : String
  passportNumber : Option String
  address : AddressValue
  documents : List KycDocumentValue
  preferences : PreferencesValue
deriving DecidableEq, Repr

/-- `new Customer(customerData)` followed by `save()`: the record persisted
for a validated create body, with the schema defaults
`status = pending_verification` and `complianceStatus = pending`
(models/Customer.ts lines 252-261) and store-assigned id and timestamps. -/
def mkCustomer (customerData : CreateCustomerValue) (newId : String) (now : Nat) :
    CustomerRec :=
  ⟨newId, customerData.firstName, customerData.lastName, customerData.email,
    customerData.phone, customerData.dateOfBirth, customerData.nationalId,
    customerData.passportNumber, customerData.address.country,
    "pending_verification", "pending", now, now⟩

/-- `Customer.findOne({$or: [{email}, {nationalId}]})`: the first stored
record matching either field. -/
def findOneByEmailOrNationalId (store : List CustomerRec) (email nationalId : String) :
    Option CustomerRec :=
  store.find? (fun c => c.email == email || c.nationalId == nationalId)

/-- `CustomerController.createCustomer` (controller lines 31-60): look up an
existing record by email-or-nationalId; when one is found report a 409 for
the email if its email matches, otherwise a 409 for the national ID;
otherwise persist and return the new record. -/
def createCustomer (store : List CustomerRec) (customerData : CreateCustomerValue)
    (newId : String) (now : Nat) : Except AppError CustomerRec × List CustomerRec :=
  match findOneByEmailOrNationalId store customerData.email customerData.nationalId with
  | some existingCustomer =>
    if existingCustomer.email == customerData.email then
      (.error ⟨"Email address is already registered", 409⟩, store)
    else if existingCustomer.nationalId == customerData.nationalId then
      (.error ⟨"National ID is already registered", 409⟩, store)
    else
      let newCustomer := mkCustomer customerData newId now
      (.ok newCustomer, store ++ [newCustomer])
  | none =>
    let newCustomer := mkCustomer customerData newId now
    (.ok newCustomer, store ++ [newCustomer])

/-- `CustomerController.deleteCustomer` (controller lines 334-348):
`findByIdAndUpdate(id, { status: 'inactive' }, { new: true })` with the
mongoose `timestamps` option bumping `updatedAt`; 404 when the id is
absent; the record itself is never removed. -/
def deleteCustomer (store : List CustomerRec) (id : String) (now : Nat) :
    Except AppError Unit × List CustomerRec :=
  if (store.find? (fun c => c.id == id)).isSome then
    (.ok (),
      store.map (fun c =>
        if c.id == id then { c with status := "inactive", updatedAt := now } else c))
  else
    (.error ⟨"Customer not found", 404⟩, store)

/-- A sample validated create body. -/
def sampleCreateValue : CreateCustomerValue :=
  ⟨"Ana", "Ruiz", "ana@x.com", "+57 300 111 2222", ⟨1990, 1, 1⟩, "12345678",
    none, ⟨"Calle 1 23-45", "Bogota", "Cundinamarca", "110001", "Colombia"⟩, [],
    ⟨"es", "COP", ⟨true, true, true⟩, false⟩⟩

/-- A stored record owning the national id `87654321` (and nothing else of
the double-conflict input). -/
def recOwningNationalId : CustomerRec :=
  ⟨"b", "Bob", "Diaz", "bob@x.com", "+57 300 111 3333", ⟨1985, 5, 5⟩,
    "87654321", none, "Colombia", "active", "pending", 1, 1⟩

/-- A stored record owning the email `ana@x.com` (and nothing else of the
double-conflict input). -/
def recOwningEmail : CustomerRec :=
  ⟨"a", "Ana", "Ruiz", "ana@x.com", "+57 300 111 2222", ⟨1990, 1, 1⟩,
    "12345678", none, "Colombia", "active", "pending", 1, 1⟩

/-- A create body colliding with `recOwningEmail` on email and with
`recOwningNationalId` on national id. -/
def doubleConflictValue : CreateCustomerValue :=
  ⟨"Cara", "Lopez", "ana@x.com", "+57 300 111 4444", ⟨1992, 2, 2⟩, "87654321",
    none, ⟨"Calle 9 87-65", "Bogota", "Cundinamarca", "110001", "Colombia"⟩, [],
    ⟨"es", "COP", ⟨true, true, true⟩, false⟩⟩

/-! ### Validation layer (src/validators/customerValidator.ts)

Request bodies are modelled as records of optional declared fields plus the
list of keys the body carries that no schema declares (`unknownKeys`).  Each
schema takes the `stripUnknown` option as an explicit boolean: with it, Joi
silently removes unknown keys; without it, each unknown key is a
`"key" is not allowed` error.  `validateRequest`/`validateQuery` always pass
`stripUnknown: true` (customerValidator.ts lines 181-185 and 236-240). -/

/-- One field-level validation error, as produced by `validateRequest`
(field path and message). -/
structure FieldError where
  field : String
  message : String
deriving DecidableEq, Repr

/-- `String.trim`, reimplemented over the character list so that concrete
instances reduce in the kernel. -/
def jsTrim (s : String) : String :=
  ⟨((s.data.dropWhile Char.isWhitespace).reverse.dropWhile Char.isWhitespace).reverse⟩

/-- `String.toLowerCase`, reimplemented over the character list. -/
def jsToLower (s : String) : String :=
  ⟨s.data.map Char.toLower⟩

/-- Split a character list at every occurrence of `sep`. -/
def splitAtChar (sep : Char) : List Char → List (List Char)
  | [] => [[]]
  | c :: cs =>
    let rest := splitAtChar sep cs
    if c == sep then [] :: rest
    else
      match rest with
      | [] => [[c]]
      | r :: rs => (c :: r) :: rs

/-- `pat` occurs at the head of `s`. -/
def startsWithChars (pat s : List Char) : Bool :=
  match pat, s with
  | [], _ => true
  | _ :: _, [] => false
  | p :: ps, c :: cs => p == c && startsWithChars ps cs

/-- `pat` occurs contiguously somewhere in `s`. -/
def containsChars (s pat : List Char) : Bool :=
  match s with
  | [] => pat.isEmpty
  | _ :: rest => startsWithChars pat s || containsChars rest pat

/-- A Joi `string().trim().min(minLen).max(maxLen)` check with explicit
messages: the value is trimmed by conversion, then rejected when empty,
shorter than `minLen` or longer than `maxLen`. -/
def checkBoundedStringMsgs (field emptyMsg minMsg maxMsg : String)
    (minLen maxLen : Nat) (raw : String) : List FieldError :=
  let value := jsTrim raw
  if value.isEmpty then [⟨field, emptyMsg⟩]
  else if value.length < minLen then [⟨field, minMsg⟩]
  else if maxLen < value.length then [⟨field, maxMsg⟩]
  else []

/-- A Joi `string().trim().min(minLen).max(maxLen)` check with Joi's
default messages: empty after trimming, too short, or too long. -/
def checkBoundedString (field : String) (minLen maxLen : Nat) (raw : String) :
    List FieldError :=
  checkBoundedStringMsgs field (field ++ " is not allowed to be empty")
    (field ++ " length must be at least " ++ toString minLen ++ " characters long")
    (field ++ " length must be less than or equal to " ++ toString maxLen ++
      " characters long")
    minLen maxLen raw

/-- A required string field: absent yields the required-message, present is
checked by `check`. -/
def checkRequired (field requiredMsg : String)
    (check : String → List FieldError) : Option String → List FieldError
  | none => [⟨field, requiredMsg⟩]
  | some raw => check raw

/-- Modelled check for Joi `string().email()`: one `@` separating a
nonempty local part from a domain that contains an inner dot.  A simplified
stand-in for Joi's full email grammar; no verified claim depends on its
fine structure. -/
def isEmailShaped (s : String) : Bool :=
  match splitAtChar '@' s.data with
  | [localPart, domain] =>
      !localPart.isEmpty && domain.contains '.' &&
        !(domain.head? == some '.') && !(domain.getLast? == some '.')
  | _ => false

/-- A character of the phone pattern class `[\d\s\-\(\)]` (whitespace
modelled as the space character). -/
def isPhoneChar (c : Char) : Bool :=
  c.isDigit || c = ' ' || c = '-' || c = '(' || c = ')'

/-- The phone pattern `/^\+?[\d\s\-\(\)]{10,15}$/`. -/
def isPhoneShaped (s : String) : Bool :=
  let t := if s.data.head? == some '+' then s.data.tail else s.data
  decide (10 ≤ t.length) && decide (t.length ≤ 15) && t.all isPhoneChar

/-- `Joi.string().email().lowercase().trim()`: the value is trimmed and
lowercased by conversion, then must be email-shaped. -/
def checkEmail (field emptyMsg invalidMsg : String) (raw : String) : List FieldError :=
  let value := jsToLower (jsTrim raw)
  if value.isEmpty then [⟨field, emptyMsg⟩]
  else if isEmailShaped value then [] else [⟨field, invalidMsg⟩]

/-- `Joi.string().trim().pattern(phone pattern)`. -/
def checkPhone (field emptyMsg patternMsg : String) (raw : String) : List FieldError :=
  let value := jsTrim raw
  if value.isEmpty then [⟨field, emptyMsg⟩]
  else if isPhoneShaped value then [] else [⟨field, patternMsg⟩]

/-- The raw (pre-validation) address object of a request body. -/
structure AddressBody where
  street : Option String
  city : Option String
  state : Option String
  postalCode : Option String
  country : Option String
deriving DecidableEq, Repr

/-- `addressSchema` errors (customerValidator.ts lines 4-30): street, city,
state and postal code are required bounded strings; country is optional. -/
def addressErrors (a : AddressBody) : List FieldError :=
  checkRequired "street" "Street address is required"
    (checkBoundedStringMsgs "street" "Street address is required"
      "Street address must be at least 5 characters"
      "Street address must not exceed 200 characters" 5 200) a.street ++
  checkRequired "city" "City is required"
    (checkBoundedStringMsgs "city" "City is required"
      "City must be at least 2 characters"
      "City must not exceed 100 characters" 2 100) a.city ++
  checkRequired "state" "State is required"
    (checkBoundedStringMsgs "state" "State is required"
      "State must be at least 2 characters"
      "State must not exceed 100 characters" 2 100) a.state ++
  checkRequired "postalCode" "Postal code is required"
    (checkBoundedStringMsgs "postalCode" "Postal code is required"
      "Postal code must be at least 3 characters"
      "Postal code must not exceed 20 characters" 3 20) a.postalCode ++
  (match a.country with
   | none => []
   | some c => checkBoundedString "country" 2 100 c)

/-- The coerced address value: trimmed components, country defaulting to
`Colombia`. -/
def addressValue (a : AddressBody) : AddressValue :=
  ⟨jsTrim (a.street.getD ""), jsTrim (a.city.getD ""), jsTrim (a.state.getD ""),
    jsTrim (a.postalCode.getD ""), (a.country.map jsTrim).getD "Colombia"⟩

/-- Raw notification preferences. -/
structure NotificationPreferencesBody where
  email : Option Bool
  sms : Option Bool
  push : Option Bool
deriving DecidableEq, Repr

/-- Raw customer preferences. -/
structure PreferencesBody where
  language : Option String
  currency : Option String
  notificationPreferences : Option NotificationPreferencesBody
  marketingConsent : Option Bool
deriving DecidableEq, Repr

/-- `customerPreferencesSchema` errors: language and currency must lie in
their enums. -/
def preferencesErrors (p : PreferencesBody) : List FieldError :=
  (match p.language with
   | none => []
   | some l =>
      if l == "es" || l == "en" then []
      else [⟨"language", "language must be one of [es, en]"⟩]) ++
  (match p.currency with
   | none => []
   | some c =>
      if c == "COP" || c == "USD" || c == "EUR" then []
      else [⟨"currency", "currency must be one of [COP, USD, EUR]"⟩])

/-- The coerced preferences value, with the schema defaults. -/
def preferencesValue (p : PreferencesBody) : PreferencesValue :=
  ⟨p.language.getD "es", p.currency.getD "COP",
    (match p.notificationPreferences with
     | none => ⟨true, true, true⟩
     | some n => ⟨n.email.getD true, n.sms.getD true, n.push.getD true⟩),
    p.marketingConsent.getD false⟩

/-- Prefix every error's field path with `parent.`. -/
def prefixFields (parent : String) (errs : List FieldError) : List FieldError :=
  errs.map (fun e => ⟨parent ++ "." ++ e.field, e.message⟩)

/-- The raw body of an update request: every declared field of
`updateCustomerSchema` as an optional value (present/absent), plus the
undeclared keys the body carries. -/
structure UpdateBody where
  firstName : Option String
  lastName : Option String
  email : Option String
  phone : Option String
  address : Option AddressBody
  preferences : Option PreferencesBody
  passportNumber : Option String
  nationalId : Option String
  dateOfBirth : Option SimpleDate
  documents : Option (List KycDocumentValue)
  emailVerified : Option Bool
  phoneVerified : Option Bool
  identityVerified : Option Bool
  complianceStatus : Option String
  status : Option String
  unknownKeys : List String
deriving DecidableEq, Repr

/-- The validated update patch handed to the controller. -/
structure UpdateValue where
  firstName : Option String
  lastName : Option String
  email : Option String
  phone : Option String
  address : Option AddressValue
  preferences : Option PreferencesValue
  passportNumber : Option String
deriving DecidableEq, Repr

/-- Number of declared keys present in an update body (Joi's `object.min`
counts the keys of the object after unknown-key stripping). -/
def declaredKeyCount (b : UpdateBody) : Nat :=
  (if b.firstName.isSome then 1 else 0) + (if b.lastName.isSome then 1 else 0) +
  (if b.email.isSome then 1 else 0) + (if b.phone.isSome then 1 else 0) +
  (if b.address.isSome then 1 else 0) + (if b.preferences.isSome then 1 else 0) +
  (if b.passportNumber.isSome then 1 else 0) + (if b.nationalId.isSome then 1 else 0) +
  (if b.dateOfBirth.isSome then 1 else 0) + (if b.documents.isSome then 1 else 0) +
  (if b.emailVerified.isSome then 1 else 0) + (if b.phoneVerified.isSome then 1 else 0) +
  (if b.identityVerified.isSome then 1 else 0) +
  (if b.complianceStatus.isSome then 1 else 0) + (if b.status.isSome then 1 else 0)

/-- All field errors of `updateCustomerSchema` (customerValidator.ts lines
122-147) under `abortEarly: false`: optional bounded/format checks on the
updatable fields, `forbidden()` errors for the eight immutable fields (with
the custom messages of lines 131-139 and Joi's default `is not allowed`
message for the rest), unknown-key errors unless `stripUnknown`, and the
`object.min(1)` error when no key survives. -/
def updateErrors (stripUnknown : Bool) (b : UpdateBody) : List FieldError :=
  (match b.firstName with
   | none => [] | some r => checkBoundedString "firstName" 2 50 r) ++
  (match b.lastName with
   | none => [] | some r => checkBoundedString "lastName" 2 50 r) ++
  (match b.email with
   | none => []
   | some r => checkEmail "email" "email is not allowed to be empty"
      "email must be a valid email" r) ++
  (match b.phone with
   | none => []
   | some r => checkPhone "phone" "phone is not allowed to be empty"
      "phone with value fails to match the required pattern" r) ++
  (match b.address with
   | none => [] | some a => prefixFields "address" (addressErrors a)) ++
  (match b.preferences with
   | none => [] | some p => prefixFields "preferences" (preferencesErrors p)) ++
  (match b.passportNumber with
   | none => []
   | some r => if r == "" then [] else checkBoundedString "passportNumber" 6 15 r) ++
  (if b.nationalId.isSome then
    [⟨"nationalId", "National ID cannot be updated directly"⟩] else []) ++
  (if b.dateOfBirth.isSome then
    [⟨"dateOfBirth", "Date of birth cannot be updated directly"⟩] else []) ++
  (if b.documents.isSome then
    [⟨"documents", "Documents must be updated through dedicated endpoints"⟩] else []) ++
  (if b.emailVerified.isSome then [⟨"emailVerified", "emailVerified is not allowed"⟩] else []) ++
  (if b.phoneVerified.isSome then [⟨"phoneVerified", "phoneVerified is not allowed"⟩] else []) ++
  (if b.identityVerified.isSome then
    [⟨"identityVerified", "identityVerified is not allowed"⟩] else []) ++
  (if b.complianceStatus.isSome then
    [⟨"complianceStatus", "complianceStatus is not allowed"⟩] else []) ++
  (if b.status.isSome then [⟨"status", "status is not allowed"⟩] else []) ++
  (if stripUnknown then []
   else b.unknownKeys.map (fun k => ⟨k, k ++ " is not allowed"⟩)) ++
  (if declaredKeyCount b + (if stripUnknown then 0 else b.unknownKeys.length) == 0 then
    [⟨"", "At least one field must be provided for update"⟩] else [])

/-- The coerced update value: trimmed/lowercased strings, validated
sub-objects, unknown keys dropped. -/
def updateValue (b : UpdateBody) : UpdateValue :=
  ⟨b.firstName.map jsTrim, b.lastName.map jsTrim,
    b.email.map (fun e => jsToLower (jsTrim e)), b.phone.map jsTrim,
    b.address.map addressValue, b.preferences.map preferencesValue,
    b.passportNumber.map (fun p => if p == "" then p else jsTrim p)⟩

/-- `updateCustomerSchema.validate(body, {abortEarly:false, stripUnknown,
convert:true})`: the coerced value when no error arises, the collected
field errors otherwise. -/
def updateCustomerSchema (stripUnknown : Bool) (b : UpdateBody) :
    Except (List FieldError) UpdateValue :=
  let errs := updateErrors stripUnknown b
  if errs.isEmpty then .ok (updateValue b) else .error errs

/-- The raw body of a create request (declared fields of
`createCustomerSchema` plus undeclared keys). -/
structure CreateBody where
  firstName : Option String
  lastName : Option String
  email : Option String
  phone : Option String
  dateOfBirth : Option SimpleDate
  nationalId : Option String
  passportNumber : Option String
  address : Option AddressBody
  documents : Option (List KycDocumentValue)
  preferences : Option PreferencesBody
  unknownKeys : List String
deriving DecidableEq, Repr

/-- KYC document type enum of `kycDocumentSchema`. -/
def kycTypeEnum : List String :=
  ["national_id", "passport", "driving_license", "address_proof", "income_proof", "other"]

/-- Item errors for the create body's `documents` array. -/
def documentsErrors (docs : List KycDocumentValue) : List FieldError :=
  (docs.map (fun d =>
    (if kycTypeEnum.contains d.type then []
     else [(⟨"type", "type must be one of the allowed document types"⟩ : FieldError)]) ++
    (if (jsTrim d.filename).isEmpty then
      [(⟨"filename", "filename is not allowed to be empty"⟩ : FieldError)]
     else if 255 < (jsTrim d.filename).length then
      [(⟨"filename",
        "filename length must be less than or equal to 255 characters long"⟩ : FieldError)]
     else []))).flatten

/-- All field errors of `createCustomerSchema` (customerValidator.ts lines
58-119) under `abortEarly: false`, with its custom messages; the
date-of-birth field combines `max('now')` and the custom age rule relative
to the validation time `today`. -/
def createErrors (stripUnknown : Bool) (today : SimpleDate) (b : CreateBody) :
    List FieldError :=
  checkRequired "firstName" "First name is required"
    (checkBoundedStringMsgs "firstName" "First name is required"
      "First name must be at least 2 characters"
      "First name must not exceed 50 characters" 2 50) b.firstName ++
  checkRequired "lastName" "Last name is required"
    (checkBoundedStringMsgs "lastName" "Last name is required"
      "Last name must be at least 2 characters"
      "Last name must not exceed 50 characters" 2 50) b.lastName ++
  checkRequired "email" "Email is required"
    (checkEmail "email" "Email is required" "Please provide a valid email address")
    b.email ++
  checkRequired "phone" "Phone number is required"
    (checkPhone "phone" "Phone number is required"
      "Please provide a valid phone number (10-15 digits)") b.phone ++
  (match b.dateOfBirth with
   | none => [⟨"dateOfBirth", "Date of birth is required"⟩]
   | some dob =>
     match validateDateOfBirth today dob with
     | .ok _ => []
     | .error msg => [⟨"dateOfBirth", msg⟩]) ++
  checkRequired "nationalId" "National ID is required"
    (checkBoundedStringMsgs "nationalId" "National ID is required"
      "National ID must be at least 8 characters"
      "National ID must not exceed 20 characters" 8 20) b.nationalId ++
  (match b.passportNumber with
   | none => []
   | some r => checkBoundedStringMsgs "passportNumber"
      "passportNumber is not allowed to be empty"
      "Passport number must be at least 6 characters"
      "Passport number must not exceed 15 characters" 6 15 r) ++
  (match b.address with
   | none => [⟨"address", "address is required"⟩]
   | some a => prefixFields "address" (addressErrors a)) ++
  (match b.documents with
   | none => [] | some docs => prefixFields "documents" (documentsErrors docs)) ++
  (match b.preferences with
   | none => [] | some p => prefixFields "preferences" (preferencesErrors p)) ++
  (if stripUnknown then []
   else b.unknownKeys.map (fun k => ⟨k, k ++ " is not allowed"⟩))

/-- The coerced create value with all schema defaults applied. -/
def createValue (b : CreateBody) : CreateCustomerValue :=
  ⟨jsTrim (b.firstName.getD ""), jsTrim (b.lastName.getD ""),
    jsToLower (jsTrim (b.email.getD "")), jsTrim (b.phone.getD ""),
    b.dateOfBirth.getD ⟨0, 0, 0⟩, jsTrim (b.nationalId.getD ""),
    b.passportNumber.map jsTrim,
    addressValue (b.address.getD ⟨none, none, none, none, none⟩),
    b.documents.getD [],
    preferencesValue (b.preferences.getD ⟨none, none, none, none⟩)⟩

/-- `createCustomerSchema.validate(body, {abortEarly:false, stripUnknown,
convert:true})` at validation time `today`. -/
def createCustomerSchema (stripUnknown : Bool) (today : SimpleDate) (b : CreateBody) :
    Except (List FieldError) CreateCustomerValue :=
  let errs := createErrors stripUnknown today b
  if errs.isEmpty then .ok (createValue b) else .error errs

/-- What a validation middleware does with a request: answer a 400
response immediately, or hand the validated value to the next handler. -/
inductive MiddlewareResult (α : Type) where
  | respond (statusCode : Nat) (message : String) (errors : List FieldError)
  | nextWith (validated : α)
deriving DecidableEq, Repr

/-- `validateRequest(schema)` (customerValidator.ts lines 179-204): runs
the schema with `abortEarly:false, stripUnknown:true, convert:true`; on
error answers 400 with message `Validation error` and the field errors,
otherwise stores the value in `req.validatedBody` and calls `next()`. -/
def validateRequest {β α : Type}
    (schemaValidate : Bool → β → Except (List FieldError) α) (body : β) :
    MiddlewareResult α :=
  match schemaValidate true body with
  | .error errs => .respond 400 "Validation error" errs
  | .ok v => .nextWith v

/-- The raw search query (`req.query` after numeric conversion). -/
structure SearchQueryBody where
  q : Option String
  status : Option String
  complianceStatus : Option String
  country : Option String
  page : Option Int
  limit : Option Int
deriving DecidableEq, Repr

/-- The validated search query with defaults applied. -/
structure SearchQueryValue where
  q : Option String
  status : Option String
  complianceStatus : Option String
  country : Option String
  page : Int
  limit : Int
deriving DecidableEq, Repr

/-- Customer status enum. -/
def statusEnum : List String :=
  ["active", "inactive", "suspended", "pending_verification"]

/-- Compliance status enum. -/
def complianceStatusEnum : List String :=
  ["pending", "approved", "rejected", "under_review"]

/-- All field errors of `searchCustomerSchema` (customerValidator.ts lines
165-176): optional free-text `q` trimmed and bounded 3-100 (with the custom
messages), enum checks on the status filters, bounded `country`, `page`
at least 1 and `limit` between 1 and 100. -/
def searchErrors (sq : SearchQueryBody) : List FieldError :=
  (match sq.q with
   | none => []
   | some raw =>
     checkBoundedStringMsgs "q" "q is not allowed to be empty"
       "Search query must be at least 3 characters"
       "Search query must not exceed 100 characters" 3 100 raw) ++
  (match sq.status with
   | none => []
   | some s =>
     if statusEnum.contains s then []
     else [⟨"status",
       "status must be one of [active, inactive, suspended, pending_verification]"⟩]) ++
  (match sq.complianceStatus with
   | none => []
   | some s =>
     if complianceStatusEnum.contains s then []
     else [⟨"complianceStatus",
       "complianceStatus must be one of [pending, approved, rejected, under_review]"⟩]) ++
  (match sq.country with
   | none => [] | some c => checkBoundedString "country" 2 100 c) ++
  (match sq.page with
   | none => []
   | some p => if p < 1 then [⟨"page", "page must be greater than or equal to 1"⟩] else []) ++
  (match sq.limit with
   | none => []
   | some l =>
     (if l < 1 then [⟨"limit", "limit must be greater than or equal to 1"⟩] else []) ++
     (if 100 < l then [⟨"limit", "limit must be less than or equal to 100"⟩] else []))

/-- The coerced search query: trimmed strings, `page` defaulting to 1 and
`limit` defaulting to 10. -/
def searchValue (sq : SearchQueryBody) : SearchQueryValue :=
  ⟨sq.q.map jsTrim, sq.status, sq.complianceStatus,
    sq.country.map jsTrim, sq.page.getD 1, sq.limit.getD 10⟩

/-- `searchCustomerSchema.validate(query, {abortEarly:false,
convert:true, stripUnknown:true})`. -/
def searchCustomerSchema (sq : SearchQueryBody) :
    Except (List FieldError) SearchQueryValue :=
  let errs := searchErrors sq
  if errs.isEmpty then .ok (searchValue sq) else .error errs

/-- The structured body of an error response (status code, message and the
optional per-field details). -/
structure ErrorBody where
  statusCode : Nat
  message : String
  errors : List FieldError
deriving DecidableEq, Repr

/-- `findByIdAndUpdate(id, updateData, {new:true, runValidators:true})`
restricted to the modelled fields: each present patch field overwrites the
stored one, `updatedAt` is bumped by the `timestamps` option. -/
def applyUpdate (c : CustomerRec) (updateData : UpdateValue) (now : Nat) : CustomerRec :=
  { c with
    firstName := updateData.firstName.getD c.firstName,
    lastName := updateData.lastName.getD c.lastName,
    email := updateData.email.getD c.email,
    phone := updateData.phone.getD c.phone,
    country := (updateData.address.map (fun a => a.country)).getD c.country,
    passportNumber :=
      match updateData.passportNumber with
      | none => c.passportNumber
      | some p => some p,
    updatedAt := now }

/-- `CustomerController.updateCustomer` behind `validateRequest
(updateCustomerSchema)` (routes, and controller lines 102-132): validation
failure answers 400 and the store is untouched; then an email patch owned
by another record answers 409; then `findByIdAndUpdate` answers 404 when
the id is absent and otherwise persists and returns the patched record. -/
def updateCustomerEndpoint (store : List CustomerRec) (id : String)
    (body : UpdateBody) (now : Nat) : Except ErrorBody CustomerRec × List CustomerRec :=
  match validateRequest updateCustomerSchema body with
  | .respond statusCode message errors => (.error ⟨statusCode, message, errors⟩, store)
  | .nextWith updateData =>
    let emailConflict : Bool :=
      match updateData.email with
      | none => false
      | some e => (store.find? (fun c => c.email == e && !(c.id == id))).isSome
    if emailConflict then
      (.error ⟨409, "Email address is already in use by another customer", []⟩, store)
    else
      match findById store id with
      | none => (.error ⟨404, "Customer not found", []⟩, store)
      | some c =>
        (.ok (applyUpdate c updateData now),
          store.map (fun c' => if c'.id == id then applyUpdate c' updateData now else c'))

/-! ### Search and pagination (controller lines 172-220 and
`sendPaginatedResponse`, middleware lines 379-403) -/

/-- `Math.ceil(totalCount / limit)` on natural numbers. -/
def jsCeil (totalCount limit : Nat) : Nat :=
  if totalCount % limit == 0 then totalCount / limit else totalCount / limit + 1

/-- The `pagination` object of a paginated response. -/
structure Pagination where
  currentPage : Nat
  totalPages : Nat
  totalItems : Nat
  itemsPerPage : Nat
  hasNextPage : Bool
  hasPreviousPage : Bool
deriving DecidableEq, Repr

/-- The body of a paginated response: the data page plus the pagination
metadata. -/
structure PaginatedBody (α : Type) where
  data : List α
  pagination : Pagination
deriving DecidableEq, Repr

/-- `sendPaginatedResponse` (errorHandler middleware lines 379-403):
`totalPages = Math.ceil(totalCount / limit)`,
`hasNextPage = page < totalPages`, `hasPreviousPage = page > 1`. -/
def sendPaginatedResponse {α : Type} (data : List α) (totalCount page limit : Nat) :
    PaginatedBody α :=
  let totalPages := jsCeil totalCount limit
  ⟨data, ⟨page, totalPages, totalCount, limit,
    decide (page < totalPages), decide (1 < page)⟩⟩

/-- Case-insensitive substring containment: models a `$regex` match with
the `i` option against an unanchored literal pattern. -/
def containsCI (s sub : String) : Bool :=
  containsChars (jsToLower s).data (jsToLower sub).data

/-- The compound search filter built by `searchCustomers` (controller lines
176-197): free-text `q` against first/last name, email and national id;
exact status and compliance-status; case-insensitive substring country. -/
def matchesFilter (sq : SearchQueryValue) (c : CustomerRec) : Bool :=
  (match sq.q with
   | none => true
   | some q => containsCI c.firstName q || containsCI c.lastName q ||
       containsCI c.email q || containsCI c.nationalId q) &&
  (match sq.status with | none => true | some s => c.status == s) &&
  (match sq.complianceStatus with | none => true | some s => c.complianceStatus == s) &&
  (match sq.country with | none => true | some s => containsCI c.country s)

/-- `.sort({ createdAt: -1 })`: creation-time-descending order. -/
def sortByCreatedAtDesc (l : List CustomerRec) : List CustomerRec :=
  l.mergeSort (fun a b => decide (b.createdAt ≤ a.createdAt))

/-- `CustomerController.searchCustomers` (controller lines 172-220) on a
validated query: filter, count, `skip = (page-1)*limit`, fetch one
creation-descending page of `limit` records, and wrap in
`sendPaginatedResponse` (the `-documents -__v` projection drops fields the
embedding does not carry). -/
def searchCustomers (store : List CustomerRec) (sq : SearchQueryValue) :
    PaginatedBody CustomerRec :=
  let filtered := store.filter (matchesFilter sq)
  let totalCount := filtered.length
  let skip := (sq.page - 1) * sq.limit
  let customers := ((sortByCreatedAtDesc filtered).drop skip.toNat).take sq.limit.toNat
  sendPaginatedResponse customers totalCount sq.page.toNat sq.limit.toNat

end MsOne

namespace MsOne


theorem computeAge_same_monthday (y m d : Nat) (hy : 18 ≤ y) :
    computeAge ⟨y, m, d⟩ ⟨y - 18, m, d⟩ = 18 := by
  simp only [computeAge]
  have h18 : ((y - 18 : Nat) : Int) = (y : Int) - 18 := by omega
  simp only [h18]
  norm_num

theorem dateAfter_of_year_lt (a b : SimpleDate) (hb : a.year < b.year) :
    dateAfter a b = false := by
  rcases a with ⟨ya, ma, da⟩
  rcases b with ⟨yb, mb, db⟩
  simp only [dateAfter]
  simp only [Bool.or_eq_false_iff, Bool.and_eq_false_iff]
  constructor
  · simp only [decide_eq_false_iff_not]; simp at hb; omega
  · left; simp only [beq_eq_false_iff_ne, ne_eq]; simp at hb; omega

theorem nextDay_year_le (d : SimpleDate) : (nextDay d).year ≤ d.year + 1 := by
  simp only [nextDay]
  split
  · simp
  · split <;> simp

theorem computeAge_nextDay (y m d : Nat) (hy : 18 ≤ y) (hm : m ≤ 12) :
    computeAge ⟨y, m, d⟩ (nextDay ⟨y - 18, m, d⟩) = 17 := by
  simp only [nextDay]
  split
  · simp only [computeAge]
    split <;> rename_i hcond <;>
      simp only [Bool.or_eq_true, Bool.and_eq_true, decide_eq_true_eq,
        beq_iff_eq, not_or, Bool.not_eq_true] at hcond <;> omega
  · split
    · simp only [computeAge]
      split <;> rename_i hcond <;>
        simp only [Bool.or_eq_true, Bool.and_eq_true, decide_eq_true_eq,
          beq_iff_eq, not_or, Bool.not_eq_true] at hcond <;> omega
    · rename_i h1 h2
      simp only [computeAge]
      split <;> rename_i hcond <;>
        simp only [Bool.or_eq_true, Bool.and_eq_true, decide_eq_true_eq,
          beq_iff_eq, not_or, Bool.not_eq_true] at hcond <;> omega

/-- If the date of birth is strictly in the future, the computed age is
nonpositive. -/
theorem computeAge_nonpos_of_future (today dob : SimpleDate)
    (h : dateAfter dob today = true) : computeAge today dob ≤ 0 := by
  rcases today with ⟨ty, tm, td⟩
  rcases dob with ⟨by_, bm, bd⟩
  simp only [dateAfter, Bool.or_eq_true, Bool.and_eq_true, decide_eq_true_eq,
    beq_iff_eq] at h
  simp only [computeAge]
  split <;> rename_i hsplit <;>
    simp only [Bool.or_eq_true, Bool.and_eq_true, decide_eq_true_eq,
      beq_iff_eq, not_or, not_and] at hsplit <;> omega

/-- Claim C3: the create-schema date-of-birth rule computes age by calendar
difference (year, then month, then day): a date of birth exactly 18 years
before the validation time passes, a date one day short of 18 years fails,
any future date fails, and a computed age greater than 120 fails. -/
theorem createSchema_dateOfBirth_rule (today : SimpleDate)
    (hy : 18 ≤ today.year) (hm : today.month ≤ 12) :
    validateDateOfBirth today ⟨today.year - 18, today.month, today.day⟩ = .ok () ∧
    validateDateOfBirth today (nextDay ⟨today.year - 18, today.month, today.day⟩) =
      .error "Customer must be between 18 and 120 years old" ∧
    (∀ dob, dateAfter dob today = true →
      validateDateOfBirth today dob = .error "Date of birth cannot be in the future") ∧
    (∀ dob, 120 < computeAge today dob →
      validateDateOfBirth today dob = .error "Customer must be between 18 and 120 years old") := by
  obtain ⟨y, m, d⟩ := today
  simp only at hy hm
  refine ⟨?_, ?_, ?_, ?_⟩
  · have hfut : dateAfter ⟨y - 18, m, d⟩ ⟨y, m, d⟩ = false :=
      dateAfter_of_year_lt _ _ (by simp; omega)
    have hage : computeAge ⟨y, m, d⟩ ⟨y - 18, m, d⟩ = 18 :=
      computeAge_same_monthday y m d hy
    simp [validateDateOfBirth, hfut, hage]
  · have hyear : (nextDay ⟨y - 18, m, d⟩).year ≤ y - 18 + 1 := nextDay_year_le _
    have hfut : dateAfter (nextDay ⟨y - 18, m, d⟩) ⟨y, m, d⟩ = false :=
      dateAfter_of_year_lt _ _ (by simp; omega)
    have hage : computeAge ⟨y, m, d⟩ (nextDay ⟨y - 18, m, d⟩) = 17 :=
      computeAge_nextDay y m d hy hm
    simp [validateDateOfBirth, hfut, hage]
  · intro dob h
    simp [validateDateOfBirth, h]
  · intro dob h
    have hfut : dateAfter dob ⟨y, m, d⟩ = false := by
      cases hq : dateAfter dob ⟨y, m, d⟩
      · rfl
      · exfalso
        have := computeAge_nonpos_of_future ⟨y, m, d⟩ dob hq
        omega
    have h18 : ¬ computeAge ⟨y, m, d⟩ dob < 18 := by omega
    simp [validateDateOfBirth, hfut, h18, h]

/-- Concrete instantiation of the date-of-birth rule theorem at the
validation time 2026-10-12. -/
theorem createSchema_dateOfBirth_rule_inst :
    validateDateOfBirth ⟨2026, 10, 12⟩ ⟨2008, 10, 12⟩ = .ok () ∧
    validateDateOfBirth ⟨2026, 10, 12⟩ (nextDay ⟨2008, 10, 12⟩) =
      .error "Customer must be between 18 and 120 years old" ∧
    (∀ dob, dateAfter dob ⟨2026, 10, 12⟩ = true →
      validateDateOfBirth ⟨2026, 10, 12⟩ dob = .error "Date of birth cannot be in the future") ∧
    (∀ dob, 120 < computeAge ⟨2026, 10, 12⟩ dob →
      validateDateOfBirth ⟨2026, 10, 12⟩ dob = .error "Customer must be between 18 and 120 years old") :=
  createSchema_dateOfBirth_rule ⟨2026, 10, 12⟩ (by decide) (by decide)

/-- Counterexample to claim C4 as stated: on a remote 400 validation
rejection, `triggerComplianceCheck` raises an error instead of returning
the absence value. -/
theorem triggerComplianceCheck_raises_on_400 :
    triggerComplianceCheck
        (.axiosFailure none (some 400) (some "bad payload")
          "Request failed with status code 400") =
      .error "Compliance validation error: bad payload" := by
  rfl

/-- Claim C4 (amended): `triggerComplianceCheck` returns the absence value
(`none`) without raising on connection refused, on every axios failure whose
status is not 400, on malformed/unsuccessful response bodies and on
non-axios exceptions; but on a remote 400 (when the code is not
ECONNREFUSED) it raises a compliance-validation error built from the remote
message. -/
theorem triggerComplianceCheck_failure_behavior :
    (∀ status respMsg errMsg,
      triggerComplianceCheck
        (.axiosFailure (some "ECONNREFUSED") status respMsg errMsg) = .ok none) ∧
    (∀ code status respMsg errMsg, status ≠ some 400 →
      triggerComplianceCheck (.axiosFailure code status respMsg errMsg) = .ok none) ∧
    (∀ d, triggerComplianceCheck (.fulfilled (.payload false d)) = .ok none) ∧
    triggerComplianceCheck (.fulfilled .missing) = .ok none ∧
    triggerComplianceCheck .otherFailure = .ok none ∧
    (∀ code respMsg errMsg, code ≠ some "ECONNREFUSED" →
      triggerComplianceCheck (.axiosFailure code (some 400) respMsg errMsg) =
        .error ("Compliance validation error: " ++ respMsg.getD "Invalid data")) := by
  refine ⟨?_, ?_, ?_, rfl, rfl, ?_⟩
  · intro status respMsg errMsg
    rfl
  · intro code status respMsg errMsg h
    by_cases hc : code = some "ECONNREFUSED"
    · subst hc; rfl
    · have hc' : (code == some "ECONNREFUSED") = false := by
        simp [hc]
      have h4 : (status == some 400) = false := by
        simp [h]
      simp [triggerComplianceCheck, hc', h4, ite_self]
  · intro d; rfl
  · intro code respMsg errMsg h
    have hc' : (code == some "ECONNREFUSED") = false := by
      simp [h]
    simp [triggerComplianceCheck, hc']

/-- Instantiation of the compliance-check behavior at a 503 remote failure:
the gateway yields `none` and raises nothing. -/
theorem triggerComplianceCheck_failure_behavior_inst :
    triggerComplianceCheck
        (.axiosFailure none (some 503) none "Request failed with status code 503") =
      .ok none :=
  triggerComplianceCheck_failure_behavior.2.1 none (some 503) none
    "Request failed with status code 503" (by decide)

/-- Counterexample to claim C5 as stated: on a remote 500 the gateway raises
the fixed message `Account service error. Please try again later.`, which
does not carry the remote message. -/
theorem getCustomerAccounts_500_drops_remote_message :
    getCustomerAccounts
        (.axiosFailure none (some 500)
          (some "the remote accounts service reported this long distinctive diagnostic message")
          "Request failed with status code 500") =
      .error "Account service error. Please try again later." ∧
    ¬ mentions "Account service error. Please try again later."
        "the remote accounts service reported this long distinctive diagnostic message" := by
  constructor
  · rfl
  · rintro ⟨pre, post, h⟩
    have hlen := congrArg String.length h
    rw [String.length_append, String.length_append] at hlen
    have h1 : ("Account service error. Please try again later." : String).length = 46 := by rfl
    have h2 : ("the remote accounts service reported this long distinctive diagnostic message" : String).length = 77 := by rfl
    rw [h1, h2] at hlen
    omega

/-- Claim C5 (amended): for the accounts lookup, a remote 404 yields the
empty list (not an error); a refused connection raises an error that the
controller surfaces as a 503; a remote 500 raises a fixed descriptive error
(without the remote message), surfaced as 503; any other error status raises
a descriptive error carrying the remote message, surfaced as 503; and every
gateway error is surfaced as a 503, never swallowed. -/
theorem getCustomerAccounts_error_behavior (store : List CustomerRec)
    (c : CustomerRec) (id : String) (hc : findById store id = some c) :
    (∀ respMsg errMsg,
      getCustomerAccountsEndpoint store id (.axiosFailure none (some 404) respMsg errMsg) =
        .ok ⟨c.id, c.firstName, c.lastName, c.email, []⟩) ∧
    (∀ status respMsg errMsg,
      getCustomerAccountsEndpoint store id
          (.axiosFailure (some "ECONNREFUSED") status respMsg errMsg) =
        .error ⟨"Account service is currently unavailable. Please try again later.", 503⟩) ∧
    (∀ respMsg errMsg,
      getCustomerAccountsEndpoint store id (.axiosFailure none (some 500) respMsg errMsg) =
        .error ⟨"Account service error. Please try again later.", 503⟩) ∧
    (∀ status remote errMsg, status ≠ 404 → status ≠ 500 →
      getCustomerAccountsEndpoint store id
          (.axiosFailure none (some status) (some remote) errMsg) =
        .error ⟨"Account service error: " ++ remote, 503⟩ ∧
      mentions ("Account service error: " ++ remote) remote) ∧
    (∀ outcome msg, getCustomerAccounts outcome = .error msg →
      getCustomerAccountsEndpoint store id outcome = .error ⟨msg, 503⟩) := by
  refine ⟨?_, ?_, ?_, ?_, ?_⟩
  · intro respMsg errMsg
    simp only [getCustomerAccountsEndpoint, hc]
    rfl
  · intro status respMsg errMsg
    simp only [getCustomerAccountsEndpoint, hc]
    rfl
  · intro respMsg errMsg
    simp only [getCustomerAccountsEndpoint, hc]
    rfl
  · intro status remote errMsg h404 h500
    have e404 : ((some status : Option Nat) == some 404) = false := by
      simp [h404]
    have e500 : ((some status : Option Nat) == some 500) = false := by
      simp [h500]
    constructor
    · simp only [getCustomerAccountsEndpoint, hc]
      simp [getCustomerAccounts, e404, e500]
    · exact ⟨"Account service error: ", "", by simp⟩
  · intro outcome msg h
    simp only [getCustomerAccountsEndpoint, hc, h]

/-- Instantiation of the accounts-lookup behavior: a remote 404 for an
existing customer yields the empty accounts list. -/
theorem getCustomerAccounts_error_behavior_inst :
    getCustomerAccountsEndpoint [sampleCustomer] "c1"
        (.axiosFailure none (some 404) none "Request failed with status code 404") =
      .ok ⟨"c1", "Ana", "Ruiz", "ana@x.com", []⟩ :=
  (getCustomerAccounts_error_behavior [sampleCustomer] sampleCustomer "c1" (by rfl)).1
    none "Request failed with status code 404"

/-- Claim C1: when some stored record already owns the submitted email or
national id, registration fails with a 409 whose message names a field that
actually collided and the store is unchanged; when no stored record matches
either field, the new record is appended to the store and returned. -/
theorem createCustomer_conflict_or_persist (store : List CustomerRec)
    (customerData : CreateCustomerValue) (newId : String) (now : Nat) :
    ((∃ c ∈ store, c.email = customerData.email ∨ c.nationalId = customerData.nationalId) →
      ∃ e : AppError,
        createCustomer store customerData newId now = (.error e, store) ∧
        e.statusCode = 409 ∧
        (e.message = "Email address is already registered" ∨
          e.message = "National ID is already registered") ∧
        (e.message = "Email address is already registered" →
          ∃ c ∈ store, c.email = customerData.email) ∧
        (e.message = "National ID is already registered" →
          ∃ c ∈ store, c.nationalId = customerData.nationalId)) ∧
    ((∀ c ∈ store, c.email ≠ customerData.email ∧ c.nationalId ≠ customerData.nationalId) →
      createCustomer store customerData newId now =
        (.ok (mkCustomer customerData newId now),
          store ++ [mkCustomer customerData newId now])) := by
  constructor
  · intro hex
    have hsome : (store.find? (fun c =>
        c.email == customerData.email || c.nationalId == customerData.nationalId)).isSome := by
      rw [List.find?_isSome]
      obtain ⟨c, hc, hor⟩ := hex
      exact ⟨c, hc, by rcases hor with h | h <;> simp [h]⟩
    obtain ⟨c0, hfind⟩ := Option.isSome_iff_exists.mp hsome
    have hp := List.find?_some hfind
    have hmem := List.mem_of_find?_eq_some hfind
    simp only [Bool.or_eq_true, beq_iff_eq] at hp
    by_cases hem : c0.email = customerData.email
    · refine ⟨⟨"Email address is already registered", 409⟩, ?_, rfl, Or.inl rfl, ?_, ?_⟩
      · simp only [createCustomer, findOneByEmailOrNationalId, hfind]
        simp [hem]
      · intro _; exact ⟨c0, hmem, hem⟩
      · intro habs; simp at habs
    · have hni : c0.nationalId = customerData.nationalId := by tauto
      refine ⟨⟨"National ID is already registered", 409⟩, ?_, rfl, Or.inr rfl, ?_, ?_⟩
      · simp only [createCustomer, findOneByEmailOrNationalId, hfind]
        simp [hem, hni]
      · intro habs; simp at habs
      · intro _; exact ⟨c0, hmem, hni⟩
  · intro hall
    have hnone : store.find? (fun c =>
        c.email == customerData.email || c.nationalId == customerData.nationalId) = none := by
      rw [List.find?_eq_none]
      intro c hc
      have := hall c hc
      simp [this.1, this.2]
    simp [createCustomer, findOneByEmailOrNationalId, hnone]

/-- Instantiation of the registration theorem: a conflicting email in the
store yields the email 409, and registration against the empty store
persists the new record. -/
theorem createCustomer_conflict_or_persist_inst :
    (∃ e : AppError,
      createCustomer [sampleCustomer] sampleCreateValue "c9" 5 =
        (.error e, [sampleCustomer]) ∧
      e.statusCode = 409 ∧
      (e.message = "Email address is already registered" ∨
        e.message = "National ID is already registered") ∧
      (e.message = "Email address is already registered" →
        ∃ c ∈ [sampleCustomer], c.email = sampleCreateValue.email) ∧
      (e.message = "National ID is already registered" →
        ∃ c ∈ [sampleCustomer], c.nationalId = sampleCreateValue.nationalId)) ∧
    createCustomer [] sampleCreateValue "c9" 5 =
      (.ok (mkCustomer sampleCreateValue "c9" 5), [mkCustomer sampleCreateValue "c9" 5]) :=
  ⟨(createCustomer_conflict_or_persist [sampleCustomer] sampleCreateValue "c9" 5).1
      ⟨sampleCustomer, by simp, Or.inl rfl⟩,
    (createCustomer_conflict_or_persist [] sampleCreateValue "c9" 5).2 (by simp)⟩

/-- Counterexample to claim C9 as stated: when the email is owned by one
record and the national id by another, and the national-id owner is the
earlier record in the store, the reported conflict is the NATIONAL ID one,
not the email one. -/
theorem createCustomer_double_conflict_reports_nationalId :
    (∃ c ∈ [recOwningNationalId, recOwningEmail], c.email = doubleConflictValue.email) ∧
    (∃ c ∈ [recOwningNationalId, recOwningEmail],
      c.nationalId = doubleConflictValue.nationalId) ∧
    (createCustomer [recOwningNationalId, recOwningEmail] doubleConflictValue "c9" 5).1 =
      .error ⟨"National ID is already registered", 409⟩ := by
  refine ⟨⟨recOwningEmail, by simp, rfl⟩, ⟨recOwningNationalId, by simp, rfl⟩, ?_⟩
  rfl

/-- Claim C9 (amended): the reported conflict is determined by the first
stored record matching either field: the email conflict is reported exactly
when that record's email equals the input's email, and the national-id
conflict is reported otherwise; in particular the tie-break is
deterministic in store order, not always in favor of the email. -/
theorem createCustomer_conflict_tiebreak (store : List CustomerRec)
    (customerData : CreateCustomerValue) (newId : String) (now : Nat)
    (c0 : CustomerRec)
    (hfind : findOneByEmailOrNationalId store customerData.email customerData.nationalId =
      some c0) :
    (c0.email = customerData.email →
      (createCustomer store customerData newId now).1 =
        .error ⟨"Email address is already registered", 409⟩) ∧
    (c0.email ≠ customerData.email →
      (createCustomer store customerData newId now).1 =
        .error ⟨"National ID is already registered", 409⟩) := by
  simp only [findOneByEmailOrNationalId] at hfind
  have hp := List.find?_some hfind
  simp only [Bool.or_eq_true, beq_iff_eq] at hp
  constructor
  · intro hem
    simp only [createCustomer, findOneByEmailOrNationalId, hfind]
    simp [hem]
  · intro hem
    have hni : c0.nationalId = customerData.nationalId := by tauto
    simp only [createCustomer, findOneByEmailOrNationalId, hfind]
    simp [hem, hni]

/-- Instantiation of the conflict tie-break: with the national-id owner
stored first, the national-id conflict is reported. -/
theorem createCustomer_conflict_tiebreak_inst :
    (createCustomer [recOwningNationalId, recOwningEmail] doubleConflictValue "c9" 5).1 =
      .error ⟨"National ID is already registered", 409⟩ :=
  (createCustomer_conflict_tiebreak [recOwningNationalId, recOwningEmail]
      doubleConflictValue "c9" 5 recOwningNationalId (by rfl)).2 (by decide)

/-- Claim C8: soft delete is idempotent on existing records: both the first
and the second application return success, the record's status is inactive
afterwards (already after the first call), no record is ever physically
removed, and soft delete of an absent id fails with a 404 leaving the store
unchanged. -/
theorem deleteCustomer_idempotent (store : List CustomerRec) (id : String)
    (t1 t2 : Nat) (h : ∃ c ∈ store, c.id = id) :
    (deleteCustomer store id t1).1 = .ok () ∧
    (deleteCustomer (deleteCustomer store id t1).2 id t2).1 = .ok () ∧
    (∀ c ∈ (deleteCustomer store id t1).2, c.id = id → c.status = "inactive") ∧
    (∀ c ∈ (deleteCustomer (deleteCustomer store id t1).2 id t2).2,
      c.id = id → c.status = "inactive") ∧
    (deleteCustomer (deleteCustomer store id t1).2 id t2).2.length = store.length ∧
    (∀ id', (∀ c ∈ store, c.id ≠ id') →
      deleteCustomer store id' t1 = (.error ⟨"Customer not found", 404⟩, store)) := by
  have hsome : (store.find? (fun c => c.id == id)).isSome := by
    rw [List.find?_isSome]
    obtain ⟨c, hc, hcid⟩ := h
    exact ⟨c, hc, by simp [hcid]⟩
  have hstep : ∀ (s : List CustomerRec) (t : Nat), (s.find? (fun c => c.id == id)).isSome →
      (deleteCustomer s id t).1 = .ok () ∧
      (deleteCustomer s id t).2 =
        s.map (fun c => if c.id == id then { c with status := "inactive", updatedAt := t } else c) := by
    intro s t hs
    simp [deleteCustomer, hs]
  obtain ⟨h1ok, h1st⟩ := hstep store t1 hsome
  have hmem1 : ∀ c ∈ (deleteCustomer store id t1).2, c.id = id → c.status = "inactive" := by
    rw [h1st]
    intro c' hc' hid
    obtain ⟨c, hc, rfl⟩ := List.mem_map.mp hc'
    by_cases hcid : c.id = id
    · simp [hcid]
    · simp only [show (c.id == id) = false by simp [hcid], if_neg] at hid ⊢
      simp_all
  have hsome1 : ((deleteCustomer store id t1).2.find? (fun c => c.id == id)).isSome := by
    rw [List.find?_isSome, h1st]
    obtain ⟨c, hc, hcid⟩ := h
    refine ⟨_, List.mem_map_of_mem _ hc, ?_⟩
    simp [hcid]
  obtain ⟨h2ok, h2st⟩ := hstep (deleteCustomer store id t1).2 t2 hsome1
  refine ⟨h1ok, h2ok, hmem1, ?_, ?_, ?_⟩
  · rw [h2st]
    intro c' hc' hid
    obtain ⟨c, hc, rfl⟩ := List.mem_map.mp hc'
    by_cases hcid : c.id = id
    · simp [hcid]
    · simp only [show (c.id == id) = false by simp [hcid], if_neg] at hid ⊢
      exact absurd (hid) hcid
  · rw [h2st, List.length_map, h1st, List.length_map]
  · intro id' hall
    have hnone : store.find? (fun c => c.id == id') = none := by
      rw [List.find?_eq_none]
      intro c hc
      simp [hall c hc]
    simp [deleteCustomer, hnone]

/-- Instantiation of soft-delete idempotence on a one-record store. -/
theorem deleteCustomer_idempotent_inst :
    (deleteCustomer [sampleCustomer] "c1" 2).1 = .ok () ∧
    (deleteCustomer (deleteCustomer [sampleCustomer] "c1" 2).2 "c1" 3).1 = .ok () :=
  ⟨(deleteCustomer_idempotent [sampleCustomer] "c1" 2 3 ⟨sampleCustomer, by simp, rfl⟩).1,
    (deleteCustomer_idempotent [sampleCustomer] "c1" 2 3 ⟨sampleCustomer, by simp, rfl⟩).2.1⟩

theorem forbidden_mem_updateErrors (stripUnknown : Bool) (b : UpdateBody) :
    (b.nationalId.isSome = true →
      (⟨"nationalId", "National ID cannot be updated directly"⟩ : FieldError) ∈
        updateErrors stripUnknown b) ∧
    (b.dateOfBirth.isSome = true →
      (⟨"dateOfBirth", "Date of birth cannot be updated directly"⟩ : FieldError) ∈
        updateErrors stripUnknown b) ∧
    (b.documents.isSome = true →
      (⟨"documents", "Documents must be updated through dedicated endpoints"⟩ : FieldError) ∈
        updateErrors stripUnknown b) ∧
    (b.emailVerified.isSome = true →
      (⟨"emailVerified", "emailVerified is not allowed"⟩ : FieldError) ∈
        updateErrors stripUnknown b) ∧
    (b.phoneVerified.isSome = true →
      (⟨"phoneVerified", "phoneVerified is not allowed"⟩ : FieldError) ∈
        updateErrors stripUnknown b) ∧
    (b.identityVerified.isSome = true →
      (⟨"identityVerified", "identityVerified is not allowed"⟩ : FieldError) ∈
        updateErrors stripUnknown b) ∧
    (b.complianceStatus.isSome = true →
      (⟨"complianceStatus", "complianceStatus is not allowed"⟩ : FieldError) ∈
        updateErrors stripUnknown b) ∧
    (b.status.isSome = true →
      (⟨"status", "status is not allowed"⟩ : FieldError) ∈ updateErrors stripUnknown b) := by
  refine ⟨?_, ?_, ?_, ?_, ?_, ?_, ?_, ?_⟩ <;>
    · intro h
      simp [updateErrors, h, List.mem_append]

theorem updateErrors_ne_nil_of_mem {b : UpdateBody} {s : Bool} {e : FieldError}
    (h : e ∈ updateErrors s b) : (updateErrors s b).isEmpty = false := by
  rw [List.isEmpty_eq_false]
  exact List.ne_nil_of_mem h

/-- Claim C2: an update request whose body includes any of the eight
immutable fields fails validation with a 400 carrying a field-level error
for each submitted immutable field, and the store is left untouched — the
request never reaches it.  Validation is a pure function of the body, so
this holds whatever the stored values are. -/
theorem updateEndpoint_rejects_immutable_fields (store : List CustomerRec)
    (id : String) (body : UpdateBody) (now : Nat)
    (h : body.nationalId.isSome = true ∨ body.dateOfBirth.isSome = true ∨
      body.documents.isSome = true ∨ body.emailVerified.isSome = true ∨
      body.phoneVerified.isSome = true ∨ body.identityVerified.isSome = true ∨
      body.complianceStatus.isSome = true ∨ body.status.isSome = true) :
    updateCustomerEndpoint store id body now =
      (.error ⟨400, "Validation error", updateErrors true body⟩, store) ∧
    (body.nationalId.isSome = true →
      (⟨"nationalId", "National ID cannot be updated directly"⟩ : FieldError) ∈
        updateErrors true body) ∧
    (body.dateOfBirth.isSome = true →
      (⟨"dateOfBirth", "Date of birth cannot be updated directly"⟩ : FieldError) ∈
        updateErrors true body) ∧
    (body.documents.isSome = true →
      (⟨"documents", "Documents must be updated through dedicated endpoints"⟩ : FieldError) ∈
        updateErrors true body) ∧
    (body.emailVerified.isSome = true →
      (⟨"emailVerified", "emailVerified is not allowed"⟩ : FieldError) ∈
        updateErrors true body) ∧
    (body.phoneVerified.isSome = true →
      (⟨"phoneVerified", "phoneVerified is not allowed"⟩ : FieldError) ∈
        updateErrors true body) ∧
    (body.identityVerified.isSome = true →
      (⟨"identityVerified", "identityVerified is not allowed"⟩ : FieldError) ∈
        updateErrors true body) ∧
    (body.complianceStatus.isSome = true →
      (⟨"complianceStatus", "complianceStatus is not allowed"⟩ : FieldError) ∈
        updateErrors true body) ∧
    (body.status.isSome = true →
      (⟨"status", "status is not allowed"⟩ : FieldError) ∈ updateErrors true body) := by
  have hforb := forbidden_mem_updateErrors true body
  have hne : (updateErrors true body).isEmpty = false := by
    rcases h with h | h | h | h | h | h | h | h
    · exact updateErrors_ne_nil_of_mem (hforb.1 h)
    · exact updateErrors_ne_nil_of_mem (hforb.2.1 h)
    · exact updateErrors_ne_nil_of_mem (hforb.2.2.1 h)
    · exact updateErrors_ne_nil_of_mem (hforb.2.2.2.1 h)
    · exact updateErrors_ne_nil_of_mem (hforb.2.2.2.2.1 h)
    · exact updateErrors_ne_nil_of_mem (hforb.2.2.2.2.2.1 h)
    · exact updateErrors_ne_nil_of_mem (hforb.2.2.2.2.2.2.1 h)
    · exact updateErrors_ne_nil_of_mem (hforb.2.2.2.2.2.2.2 h)
  refine ⟨?_, hforb.1, hforb.2.1, hforb.2.2.1, hforb.2.2.2.1, hforb.2.2.2.2.1,
    hforb.2.2.2.2.2.1, hforb.2.2.2.2.2.2.1, hforb.2.2.2.2.2.2.2⟩
  simp only [updateCustomerEndpoint, validateRequest, updateCustomerSchema, hne]
  rfl

/-- Instantiation of the immutable-field rejection: a body submitting only
`status` (equal to a stored value or not) is answered 400 with a
field-level error on `status`, and the store is unchanged. -/
theorem updateEndpoint_rejects_immutable_fields_inst :
    updateCustomerEndpoint [sampleCustomer] "c1"
        ⟨none, none, none, none, none, none, none, none, none, none, none, none,
          none, none, some "active", []⟩ 7 =
      (.error ⟨400, "Validation error",
        updateErrors true ⟨none, none, none, none, none, none, none, none, none,
          none, none, none, none, none, some "active", []⟩⟩, [sampleCustomer]) ∧
    (⟨"status", "status is not allowed"⟩ : FieldError) ∈
      updateErrors true ⟨none, none, none, none, none, none, none, none, none,
        none, none, none, none, none, some "active", []⟩ :=
  have happ := updateEndpoint_rejects_immutable_fields [sampleCustomer] "c1"
    ⟨none, none, none, none, none, none, none, none, none, none, none, none,
      none, none, some "active", []⟩ 7
    (by right; right; right; right; right; right; right; rfl)
  ⟨happ.1, happ.2.2.2.2.2.2.2.2 rfl⟩

/-- Claim C10: with the `stripUnknown` option that `validateRequest` always
passes, undeclared body fields are silently dropped: the validation outcome
and the value handed to the handler are independent of them (for both the
create and the update schema), so the persisted record cannot contain them;
in contrast an explicitly forbidden immutable field does produce a
validation error. -/
theorem validateRequest_strips_undeclared :
    (∀ (b : UpdateBody) (ks : List String),
      validateRequest updateCustomerSchema { b with unknownKeys := ks } =
        validateRequest updateCustomerSchema { b with unknownKeys := [] }) ∧
    (∀ (today : SimpleDate) (b : CreateBody) (ks : List String),
      validateRequest (fun s body => createCustomerSchema s today body)
          { b with unknownKeys := ks } =
        validateRequest (fun s body => createCustomerSchema s today body)
          { b with unknownKeys := [] }) ∧
    (∀ b : UpdateBody, b.status.isSome = true →
      ∃ errs,
        validateRequest updateCustomerSchema b = .respond 400 "Validation error" errs ∧
        (⟨"status", "status is not allowed"⟩ : FieldError) ∈ errs) := by
  refine ⟨?_, ?_, ?_⟩
  · intro b ks
    have he : updateErrors true { b with unknownKeys := ks } =
        updateErrors true { b with unknownKeys := [] } := by
      simp [updateErrors, declaredKeyCount]
    have hv : updateValue { b with unknownKeys := ks } =
        updateValue { b with unknownKeys := [] } := rfl
    simp [validateRequest, updateCustomerSchema, he, hv]
  · intro today b ks
    have he : createErrors true today { b with unknownKeys := ks } =
        createErrors true today { b with unknownKeys := [] } := by
      simp [createErrors]
    have hv : createValue { b with unknownKeys := ks } =
        createValue { b with unknownKeys := [] } := rfl
    simp [validateRequest, createCustomerSchema, he, hv]
  · intro b h
    have hmem := (forbidden_mem_updateErrors true b).2.2.2.2.2.2.2 h
    have hne := updateErrors_ne_nil_of_mem hmem
    refine ⟨updateErrors true b, ?_, hmem⟩
    simp only [validateRequest, updateCustomerSchema, hne, Bool.false_eq_true, if_false]

/-- Instantiation of unknown-key stripping: two bodies differing only in
undeclared keys validate identically, and a body submitting the forbidden
`status` key is answered with a field error on `status`. -/
theorem validateRequest_strips_undeclared_inst :
    validateRequest updateCustomerSchema
        ⟨some "Anna", none, none, none, none, none, none, none, none, none,
          none, none, none, none, none, ["hobby", "nickname"]⟩ =
      validateRequest updateCustomerSchema
        ⟨some "Anna", none, none, none, none, none, none, none, none, none,
          none, none, none, none, none, []⟩ ∧
    (∃ errs,
      validateRequest updateCustomerSchema
          ⟨none, none, none, none, none, none, none, none, none, none, none,
            none, none, none, some "suspended", []⟩ =
        .respond 400 "Validation error" errs ∧
      (⟨"status", "status is not allowed"⟩ : FieldError) ∈ errs) :=
  ⟨validateRequest_strips_undeclared.1
      ⟨some "Anna", none, none, none, none, none, none, none, none, none,
        none, none, none, none, none, []⟩ ["hobby", "nickname"],
    validateRequest_strips_undeclared.2.2
      ⟨none, none, none, none, none, none, none, none, none, none, none,
        none, none, none, some "suspended", []⟩ rfl⟩

/-- Counterexample to claim C7 as stated: a submitted limit of 150 is not
clamped to 100 - the whole query is rejected with a validation error and no
validated value is produced. -/
theorem searchLimit_150_rejected :
    searchCustomerSchema ⟨none, none, none, none, none, some 150⟩ =
      .error [⟨"limit", "limit must be less than or equal to 100"⟩] ∧
    ∀ v, searchCustomerSchema ⟨none, none, none, none, none, some 150⟩ ≠ .ok v := by
  refine ⟨rfl, ?_⟩
  intro v h
  rw [show searchCustomerSchema ⟨none, none, none, none, none, some 150⟩ =
      .error [⟨"limit", "limit must be less than or equal to 100"⟩] from rfl] at h
  exact Except.noConfusion h

/-- Claim C7 (amended): a free-text term shorter than 3 characters after
trimming is rejected; an omitted page defaults to 1 and an omitted limit
defaults to 10; a submitted limit outside 1-100 is rejected with a
field-level validation error on `limit` rather than clamped. -/
theorem searchQuery_rules :
    (∀ (sq : SearchQueryBody) (raw : String), sq.q = some raw → (jsTrim raw).length < 3 →
      ∃ errs, searchCustomerSchema sq = .error errs ∧ ∃ e ∈ errs, e.field = "q") ∧
    (∀ (sq : SearchQueryBody) (v : SearchQueryValue), sq.page = none →
      searchCustomerSchema sq = .ok v → v.page = 1) ∧
    (∀ (sq : SearchQueryBody) (v : SearchQueryValue), sq.limit = none →
      searchCustomerSchema sq = .ok v → v.limit = 10) ∧
    (∀ (sq : SearchQueryBody) (l : Int), sq.limit = some l → (l < 1 ∨ 100 < l) →
      ∃ errs, searchCustomerSchema sq = .error errs ∧ ∃ e ∈ errs, e.field = "limit") := by
  refine ⟨?_, ?_, ?_, ?_⟩
  · intro sq raw hq hlen
    by_cases hq0 : (jsTrim raw).isEmpty
    · have hmem : (⟨"q", "q is not allowed to be empty"⟩ : FieldError) ∈ searchErrors sq := by
        simp [searchErrors, hq, checkBoundedStringMsgs, hq0, List.mem_append]
      have hne : (searchErrors sq).isEmpty = false := by
        rw [List.isEmpty_eq_false]; exact List.ne_nil_of_mem hmem
      exact ⟨searchErrors sq, by simp [searchCustomerSchema, hne], _, hmem, rfl⟩
    · have hmem : (⟨"q", "Search query must be at least 3 characters"⟩ : FieldError) ∈
          searchErrors sq := by
        simp [searchErrors, hq, checkBoundedStringMsgs, hq0, hlen, List.mem_append]
      have hne : (searchErrors sq).isEmpty = false := by
        rw [List.isEmpty_eq_false]; exact List.ne_nil_of_mem hmem
      exact ⟨searchErrors sq, by simp [searchCustomerSchema, hne], _, hmem, rfl⟩
  · intro sq v hnone hok
    simp only [searchCustomerSchema] at hok
    split at hok
    · injection hok with hv
      subst hv
      simp [searchValue, hnone]
    · exact Except.noConfusion hok
  · intro sq v hnone hok
    simp only [searchCustomerSchema] at hok
    split at hok
    · injection hok with hv
      subst hv
      simp [searchValue, hnone]
    · exact Except.noConfusion hok
  · intro sq l hlim hout
    rcases hout with hlt | hgt
    · have hnot : ¬ (100 : Int) < l := by omega
      have hmem : (⟨"limit", "limit must be greater than or equal to 1"⟩ : FieldError) ∈
          searchErrors sq := by
        simp [searchErrors, hlim, hlt, hnot, List.mem_append]
      have hne : (searchErrors sq).isEmpty = false := by
        rw [List.isEmpty_eq_false]; exact List.ne_nil_of_mem hmem
      exact ⟨searchErrors sq, by simp [searchCustomerSchema, hne], _, hmem, rfl⟩
    · have hnot : ¬ l < (1 : Int) := by omega
      have hmem : (⟨"limit", "limit must be less than or equal to 100"⟩ : FieldError) ∈
          searchErrors sq := by
        simp [searchErrors, hlim, hgt, hnot, List.mem_append]
      have hne : (searchErrors sq).isEmpty = false := by
        rw [List.isEmpty_eq_false]; exact List.ne_nil_of_mem hmem
      exact ⟨searchErrors sq, by simp [searchCustomerSchema, hne], _, hmem, rfl⟩

/-- Instantiation of the search-query rules: a one-character term is
rejected with an error on `q`, and the empty query defaults to page 1 and
limit 10. -/
theorem searchQuery_rules_inst :
    (∃ errs, searchCustomerSchema ⟨some "ab", none, none, none, none, none⟩ =
      .error errs ∧ ∃ e ∈ errs, e.field = "q") ∧
    (searchCustomerSchema ⟨none, none, none, none, none, none⟩ =
        .ok ⟨none, none, none, none, 1, 10⟩ → (1 : Int) = 1) :=
  ⟨searchQuery_rules.1 ⟨some "ab", none, none, none, none, none⟩ "ab" rfl (by decide),
    fun h => searchQuery_rules.2.1 ⟨none, none, none, none, none, none⟩
      ⟨none, none, none, none, 1, 10⟩ rfl h⟩

theorem jsCeil_eq (n l : Nat) (hl : 1 ≤ l) : jsCeil n l = (n + l - 1) / l := by
  obtain ⟨q, r, hr, rfl⟩ : ∃ q r, r < l ∧ n = l * q + r :=
    ⟨n / l, n % l, Nat.mod_lt _ hl, (Nat.div_add_mod n l).symm⟩
  have hmod : (l * q + r) % l = r := by
    rw [Nat.mul_add_mod, Nat.mod_eq_of_lt hr]
  have hdiv : (l * q + r) / l = q := by
    rw [Nat.mul_add_div (by omega), Nat.div_eq_of_lt hr]
    omega
  by_cases h0 : r = 0
  · subst h0
    simp only [Nat.add_zero] at hmod hdiv ⊢
    have h1 : l * q + l - 1 = l * q + (l - 1) := by omega
    have h2 : (l * q + (l - 1)) / l = q := by
      rw [Nat.mul_add_div (by omega), Nat.div_eq_of_lt (by omega)]
      omega
    simp [jsCeil, hmod, hdiv, h1, h2]
  · have h1 : l * q + r + l - 1 = l * (q + 1) + (r - 1) := by
      have hml : l * (q + 1) = l * q + l := by ring
      omega
    have h2 : (l * (q + 1) + (r - 1)) / l = q + 1 := by
      rw [Nat.mul_add_div (by omega), Nat.div_eq_of_lt (by omega)]
    simp [jsCeil, hmod, hdiv, h0, h1, h2]

/-- Claim C6: for a validated search with page `p ≥ 1` and limit `l ≥ 1`
over `n` matching records, the returned page is the creation-descending
match list with `(p-1)*l` records skipped and `l` taken (hence itself
creation-descending), and the pagination metadata satisfies
`currentPage = p`, `totalPages = ceil(n/l) = (n+l-1)/l`, `totalItems = n`,
`itemsPerPage = l`, `hasNextPage ↔ p < totalPages` and
`hasPreviousPage ↔ p > 1`. -/
theorem searchCustomers_pagination (store : List CustomerRec) (sq : SearchQueryValue)
    (p l n : Nat) (hp : sq.page = (p : Int)) (hl : sq.limit = (l : Int))
    (hp1 : 1 ≤ p) (hl1 : 1 ≤ l)
    (hn : n = (store.filter (matchesFilter sq)).length) :
    (searchCustomers store sq).data =
      ((sortByCreatedAtDesc (store.filter (matchesFilter sq))).drop ((p - 1) * l)).take l ∧
    (searchCustomers store sq).data.Pairwise (fun a b => b.createdAt ≤ a.createdAt) ∧
    (searchCustomers store sq).pagination.currentPage = p ∧
    (searchCustomers store sq).pagination.totalPages = (n + l - 1) / l ∧
    (searchCustomers store sq).pagination.totalItems = n ∧
    (searchCustomers store sq).pagination.itemsPerPage = l ∧
    ((searchCustomers store sq).pagination.hasNextPage = true ↔ p < (n + l - 1) / l) ∧
    ((searchCustomers store sq).pagination.hasPreviousPage = true ↔ 1 < p) := by
  have hskip : ((sq.page - 1) * sq.limit).toNat = (p - 1) * l := by
    rw [hp, hl]
    have h1 : ((p : Int) - 1) = ((p - 1 : Nat) : Int) := by omega
    rw [h1, ← Int.natCast_mul, Int.toNat_ofNat]
  have hptn : sq.page.toNat = p := by rw [hp]; exact Int.toNat_ofNat p
  have hltn : sq.limit.toNat = l := by rw [hl]; exact Int.toNat_ofNat l
  have hsorted : (sortByCreatedAtDesc (store.filter (matchesFilter sq))).Pairwise
      (fun a b => b.createdAt ≤ a.createdAt) := by
    have h : (sortByCreatedAtDesc (store.filter (matchesFilter sq))).Pairwise
        (fun a b => decide (b.createdAt ≤ a.createdAt) = true) := by
      simp only [sortByCreatedAtDesc]
      exact List.sorted_mergeSort
        (fun a b c hab hbc => by
          simp only [decide_eq_true_eq] at hab hbc ⊢; omega)
        (fun a b => by
          simp only [Bool.or_eq_true, decide_eq_true_eq]; omega)
        (store.filter (matchesFilter sq))
    exact h.imp (by simp only [decide_eq_true_eq]; exact id)
  have hceil := jsCeil_eq n l hl1
  simp only [searchCustomers, sendPaginatedResponse, hskip, hptn, hltn]
  refine ⟨trivial, ?_, trivial, ?_, hn.symm, trivial, ?_, ?_⟩
  · exact List.Pairwise.sublist
      ((List.take_sublist _ _).trans (List.drop_sublist _ _)) hsorted
  · rw [← hn, hceil]
  · rw [← hn, hceil, decide_eq_true_iff]
  · rw [decide_eq_true_iff]

/-- Instantiation of the pagination metadata at page 2 with limit 10 over
an empty match list. -/
theorem searchCustomers_pagination_inst :
    (searchCustomers [] ⟨none, none, none, none, 2, 10⟩).pagination.currentPage = 2 ∧
    ((searchCustomers [] ⟨none, none, none, none, 2, 10⟩).pagination.hasPreviousPage = true ↔
      1 < 2) :=
  have happ := searchCustomers_pagination [] ⟨none, none, none, none, 2, 10⟩ 2 10 0
    rfl rfl (by decide) (by decide) rfl
  ⟨happ.2.2.1, happ.2.2.2.2.2.2.2⟩

end MsOne
